import Mathlib

/-!
Formal model of the Geeta University venue-booking system.

The repository contains two near-duplicate React implementations of the same
feature:

* Variant A: `src/src/components/VenueBookingSystem.tsx` — statuses
  `Pending | Approved | Cancelled`, local-storage persistence, soft cancel.
* Variant B: `src/unnamed/part_000` — statuses `pending | approved | rejected`,
  seeded bookings, approve/reject/delete operations, booking dialog.

Each React state-updating handler is embedded as a pure function from the
component state (and the event payload) to the new state.  Environmental
inputs that the code obtains from the platform (generated ids, timestamps,
the authenticated username) are passed as explicit parameters.
-/

/-! ## Variant A data model (`VenueBookingSystem.tsx`) -/

/-- Status union of variant A: `'Pending' | 'Approved' | 'Cancelled'`. -/
inductive StatusA where
  | Pending
  | Approved
  | Cancelled
deriving DecidableEq, Repr

/-- The `Booking` interface of variant A. -/
structure BookingA where
  id : String
  venueId : String
  venueName : String
  date : String
  timeSlot : String
  bookerName : String
  department : String
  purpose : String
  status : StatusA
  createdAt : String
deriving DecidableEq, Repr

/-- The `Venue` interface of variant A. -/
structure VenueA where
  id : String
  name : String
  description : String
  capacity : String
  location : String
  features : List String
deriving DecidableEq, Repr

/-- The `TimeSlot` interface of variant A. -/
structure TimeSlotA where
  id : String
  time : String
  period : String
deriving DecidableEq, Repr

/-- The static `VENUES` catalog of variant A. -/
def VENUES : List VenueA :=
  [ { id := "auditorium", name := "Main Auditorium",
      description := "Large capacity auditorium perfect for conferences, seminars, and major events",
      capacity := "500 seats", location := "Main Building, Ground Floor",
      features := ["Air Conditioning", "Projector", "Sound System", "Stage", "Microphones"] },
    { id := "e-block-seminar", name := "E Block Seminar Hall",
      description := "Modern seminar hall ideal for workshops, presentations, and departmental meetings",
      capacity := "100 seats", location := "E Block, 2nd Floor",
      features := ["Air Conditioning", "Projector", "Whiteboard", "Wi-Fi", "Video Conferencing"] },
    { id := "d-block-seminar", name := "D Block Seminar Hall",
      description := "Versatile seminar hall suitable for training sessions and academic events",
      capacity := "80 seats", location := "D Block, 1st Floor",
      features := ["Air Conditioning", "Smart Board", "Audio System", "Wi-Fi"] } ]

/-- The static `TIME_SLOTS` table of variant A (9 AM to 6 PM). -/
def TIME_SLOTS : List TimeSlotA :=
  [ { id := "9-10", time := "09:00 - 10:00", period := "AM" },
    { id := "10-11", time := "10:00 - 11:00", period := "AM" },
    { id := "11-12", time := "11:00 - 12:00", period := "AM" },
    { id := "12-13", time := "12:00 - 13:00", period := "PM" },
    { id := "13-14", time := "13:00 - 14:00", period := "PM" },
    { id := "14-15", time := "14:00 - 15:00", period := "PM" },
    { id := "15-16", time := "15:00 - 16:00", period := "PM" },
    { id := "16-17", time := "16:00 - 17:00", period := "PM" },
    { id := "17-18", time := "17:00 - 18:00", period := "PM" } ]

/-- The `bookingForm` state object of variant A
(`{ bookerName, department, purpose }`). -/
structure BookingFormA where
  bookerName : String
  department : String
  purpose : String
deriving DecidableEq, Repr

/-- Variant A component state relevant to the booking logic.  The JS values
`selectedDate`/`selectedTimeSlot` are strings whose JS truthiness means
"non-empty"; we model them as `String` and test emptiness explicitly. -/
structure StateA where
  selectedVenue : Option VenueA
  selectedDate : String
  selectedTimeSlot : String
  bookings : List BookingA
  showBookingForm : Bool
  bookingForm : BookingFormA
deriving DecidableEq, Repr

/-- `isTimeSlotBooked` of variant A: some booking matches venue, date and
slot and its status is not `'Cancelled'`. -/
def isTimeSlotBookedA (bookings : List BookingA) (venueId date timeSlot : String) : Bool :=
  bookings.any fun booking =>
    booking.venueId == venueId &&
    booking.date == date &&
    booking.timeSlot == timeSlot &&
    booking.status != StatusA.Cancelled

/-- `handleVenueSelect`: store the venue, clear date, slot and form flag. -/
def handleVenueSelect (s : StateA) (venue : VenueA) : StateA :=
  { s with selectedVenue := some venue, selectedDate := "", selectedTimeSlot := "",
           showBookingForm := false }

/-- `handleDateSelect`: store the date string, clear slot and form flag. -/
def handleDateSelect (s : StateA) (dateStr : String) : StateA :=
  { s with selectedDate := dateStr, selectedTimeSlot := "", showBookingForm := false }

/-- `handleTimeSlotSelect`: guarded by `selectedVenue && selectedDate`
(JS truthiness = the date string is non-empty); refuses a slot the conflict
checker reports as booked, otherwise records the slot and opens the form. -/
def handleTimeSlotSelect (s : StateA) (timeSlotId : String) : StateA :=
  match s.selectedVenue with
  | none => s
  | some v =>
    if s.selectedDate = "" then s
    else if isTimeSlotBookedA s.bookings v.id s.selectedDate timeSlotId then s
    else { s with selectedTimeSlot := timeSlotId, showBookingForm := true }

/-- JS whitespace as trimmed by `String.prototype.trim` (restricted to the
characters that can occur here: space, tab, line/form feeds, carriage return,
vertical tab, no-break space). -/
def isJsWhitespace (c : Char) : Bool :=
  c = ' ' || c = '\t' || c = '\n' || c = '\r' ||
  c = Char.ofNat 11 || c = Char.ofNat 12 || c = Char.ofNat 160

/-- The platform function `String.prototype.trim`: strip leading and
trailing whitespace. -/
def jsTrim (s : String) : String :=
  String.mk (((s.data.dropWhile isJsWhitespace).reverse.dropWhile isJsWhitespace).reverse)

/-- `handleBookingSubmit`: validation `!selectedVenue || !selectedDate ||
!selectedTimeSlot || !bookingForm.purpose.trim()` aborts without touching
state; otherwise the new `Pending` booking is appended and purpose, form flag
and slot are reset.  `newId` models `generateBookingId()` and `createdAt`
models `new Date().toISOString()`. -/
def handleBookingSubmit (s : StateA) (newId createdAt : String) : StateA :=
  match s.selectedVenue with
  | none => s
  | some v =>
    if s.selectedDate = "" ∨ s.selectedTimeSlot = "" ∨ jsTrim s.bookingForm.purpose = "" then s
    else
      let newBooking : BookingA :=
        { id := newId, venueId := v.id, venueName := v.name,
          date := s.selectedDate, timeSlot := s.selectedTimeSlot,
          bookerName := s.bookingForm.bookerName,
          department := s.bookingForm.department,
          purpose := s.bookingForm.purpose,
          status := StatusA.Pending, createdAt := createdAt }
      { s with bookings := s.bookings ++ [newBooking],
               bookingForm := { s.bookingForm with purpose := "" },
               showBookingForm := false, selectedTimeSlot := "" }

/-- The `setBookings` updater of `handleCancelBooking`: every booking whose
id matches is rewritten to status `'Cancelled'`, unconditionally. -/
def handleCancelBooking (bookings : List BookingA) (bookingId : String) : List BookingA :=
  bookings.map fun booking =>
    if booking.id == bookingId then { booking with status := StatusA.Cancelled } else booking

/-- Form-field updater `setBookingForm(prev => ({...prev, purpose: x}))`. -/
def setPurposeA (s : StateA) (x : String) : StateA :=
  { s with bookingForm := { s.bookingForm with purpose := x } }

/-- Form-field updater for `bookerName`. -/
def setBookerNameA (s : StateA) (x : String) : StateA :=
  { s with bookingForm := { s.bookingForm with bookerName := x } }

/-- Form-field updater for `department`. -/
def setDepartmentA (s : StateA) (x : String) : StateA :=
  { s with bookingForm := { s.bookingForm with department := x } }

/-- The mock HOD user of variant A. -/
def MOCK_USER_name : String := "Dr. Rajesh Kumar"

/-- The mock HOD user's department. -/
def MOCK_USER_department : String := "Computer Science"

/-- Initial component state of variant A with fresh (absent) persisted
storage: `useState` seeds `bookings` with `[]` and the load effect leaves it
untouched when `localStorage.getItem` returns `null`. -/
def initialStateA : StateA :=
  { selectedVenue := none, selectedDate := "", selectedTimeSlot := "",
    bookings := [], showBookingForm := false,
    bookingForm := { bookerName := MOCK_USER_name,
                     department := MOCK_USER_department, purpose := "" } }

/-- One user interaction of variant A.  Each constructor applies the
corresponding handler; `cancel` and `closeForm` are the two remaining state
writers (`setBookings` inside `handleCancelBooking`, and the form's Cancel
button `setShowBookingForm(false)`). -/
inductive stepA : StateA → StateA → Prop where
  | venueSelect (s : StateA) (v : VenueA) : stepA s (handleVenueSelect s v)
  | dateSelect (s : StateA) (d : String) : stepA s (handleDateSelect s d)
  | timeSlotSelect (s : StateA) (t : String) : stepA s (handleTimeSlotSelect s t)
  | submit (s : StateA) (newId createdAt : String) :
      stepA s (handleBookingSubmit s newId createdAt)
  | cancel (s : StateA) (bid : String) :
      stepA s { s with bookings := handleCancelBooking s.bookings bid }
  | closeForm (s : StateA) : stepA s { s with showBookingForm := false }
  | purposeChange (s : StateA) (x : String) : stepA s (setPurposeA s x)
  | bookerNameChange (s : StateA) (x : String) : stepA s (setBookerNameA s x)
  | departmentChange (s : StateA) (x : String) : stepA s (setDepartmentA s x)

/-- States of variant A reachable from the fresh-storage initial state. -/
def ReachableA (s : StateA) : Prop :=
  Relation.ReflTransGen stepA initialStateA s

/-- The `(venueId, date, timeSlot)` triple of a variant-A booking. -/
def tripleA (b : BookingA) : String × String × String :=
  (b.venueId, b.date, b.timeSlot)

/-- Uniqueness invariant of variant A: any two bookings at distinct list
positions that are both non-Cancelled have different triples. -/
def UniqueActiveA (l : List BookingA) : Prop :=
  l.Pairwise fun a b =>
    a.status ≠ StatusA.Cancelled → b.status ≠ StatusA.Cancelled → tripleA a ≠ tripleA b

/-! ## Variant B data model (`src/unnamed/part_000`) -/

/-- Status union of variant B: `'pending' | 'approved' | 'rejected'`. -/
inductive StatusB where
  | pending
  | approved
  | rejected
deriving DecidableEq, Repr

/-- The venue `type` union of variant B. -/
inductive VenueTypeB where
  | classroom
  | auditorium
  | lab
  | conference
  | outdoor
deriving DecidableEq, Repr

/-- The `Venue` interface of variant B. -/
structure VenueB where
  id : String
  name : String
  capacity : Nat
  location : String
  amenities : List String
  image : String
  type : VenueTypeB
deriving DecidableEq, Repr

/-- The `Booking` interface of variant B. -/
structure BookingB where
  id : String
  venueId : String
  venueName : String
  date : String
  timeSlot : String
  purpose : String
  bookedBy : String
  status : StatusB
  attendees : Nat
  requirements : String
  contactEmail : String
  department : String
deriving DecidableEq, Repr

/-- The `BookingFormData` interface of variant B (react-hook-form payload). -/
structure BookingFormData where
  purpose : String
  attendees : Nat
  requirements : String
  contactEmail : String
  department : String
deriving DecidableEq, Repr

/-- Variant B component state relevant to the booking logic. -/
structure StateB where
  bookings : List BookingB
  selectedVenue : Option VenueB
  selectedDate : String
  selectedTimeSlot : String
  isBookingDialogOpen : Bool
deriving DecidableEq, Repr

/-- `isTimeSlotBooked` of variant B: some booking matches venue, date and
slot and its status is not `'rejected'`. -/
def isTimeSlotBookedB (bookings : List BookingB) (venueId date timeSlot : String) : Bool :=
  bookings.any fun booking =>
    booking.venueId == venueId &&
    booking.date == date &&
    booking.timeSlot == timeSlot &&
    booking.status != StatusB.rejected

/-- `handleBookVenue`: stores the venue and opens the dialog.  Note that
unlike variant A it does not reset `selectedDate` or `selectedTimeSlot`. -/
def handleBookVenue (s : StateB) (venue : VenueB) : StateB :=
  { s with selectedVenue := some venue, isBookingDialogOpen := true }

/-- The date input's `onChange`: `setSelectedDate(e.target.value)`.  It does
not clear the selected time slot (the `min` attribute is a browser rendering
hint, not a state guard). -/
def setSelectedDateB (s : StateB) (d : String) : StateB :=
  { s with selectedDate := d }

/-- A slot button click, `() => !isBooked && setSelectedTimeSlot(slot)`; the
buttons are rendered only when a venue is selected and the date string is
non-empty (JS truthiness). -/
def handleTimeSlotClickB (s : StateB) (slot : String) : StateB :=
  match s.selectedVenue with
  | none => s
  | some v =>
    if s.selectedDate = "" then s
    else if isTimeSlotBookedB s.bookings v.id s.selectedDate slot then s
    else { s with selectedTimeSlot := slot }

/-- The `user?.username || 'Unknown User'` expression (JS `||` treats the
empty string as falsy). -/
def bookedByOf (username : Option String) : String :=
  match username with
  | none => "Unknown User"
  | some u => if u = "" then "Unknown User" else u

/-- `onSubmitBooking`: `if (!selectedVenue || !selectedDate ||
!selectedTimeSlot) return;` — the purpose field is not inspected — then the
new `pending` booking is appended, the dialog closes and the selections are
reset.  `newId` models `Date.now().toString()`. -/
def onSubmitBooking (s : StateB) (data : BookingFormData) (newId : String)
    (username : Option String) : StateB :=
  match s.selectedVenue with
  | none => s
  | some v =>
    if s.selectedDate = "" ∨ s.selectedTimeSlot = "" then s
    else
      let newBooking : BookingB :=
        { id := newId, venueId := v.id, venueName := v.name,
          date := s.selectedDate, timeSlot := s.selectedTimeSlot,
          purpose := data.purpose, bookedBy := bookedByOf username,
          status := StatusB.pending, attendees := data.attendees,
          requirements := data.requirements, contactEmail := data.contactEmail,
          department := data.department }
      { s with bookings := s.bookings ++ [newBooking],
               isBookingDialogOpen := false, selectedVenue := none,
               selectedDate := "", selectedTimeSlot := "" }

/-- `updateBookingStatus`: every booking whose id matches has its status
overwritten, unconditionally (the TS signature restricts the `status`
argument to `'approved' | 'rejected'`; callers pass only those values). -/
def updateBookingStatus (bookings : List BookingB) (bookingId : String)
    (status : StatusB) : List BookingB :=
  bookings.map fun booking =>
    if booking.id == bookingId then { booking with status := status } else booking

/-- `deleteBooking`: hard-removes every booking whose id matches. -/
def deleteBooking (bookings : List BookingB) (bookingId : String) : List BookingB :=
  bookings.filter fun booking => booking.id != bookingId

/-- First seeded booking of variant B (`useState` initializer). -/
def seedBooking1 : BookingB :=
  { id := "1", venueId := "1", venueName := "Main Auditorium",
    date := "2024-01-15", timeSlot := "09:00-11:00", purpose := "Annual Function",
    bookedBy := "Dr. Smith", status := StatusB.approved, attendees := 300,
    requirements := "Stage decoration, sound system",
    contactEmail := "dr.smith@geeta.edu", department := "Cultural Committee" }

/-- Second seeded booking of variant B (`useState` initializer). -/
def seedBooking2 : BookingB :=
  { id := "2", venueId := "2", venueName := "Conference Hall",
    date := "2024-01-16", timeSlot := "14:00-16:00", purpose := "Department Meeting",
    bookedBy := "Prof. Johnson", status := StatusB.pending, attendees := 25,
    requirements := "Projector, refreshments",
    contactEmail := "prof.johnson@geeta.edu", department := "Computer Science" }

/-- The seeded bookings list of variant B. -/
def initialBookingsB : List BookingB := [seedBooking1, seedBooking2]

/-- Venue `'1'` (Main Auditorium) from variant B's static catalog. -/
def venue1B : VenueB :=
  { id := "1", name := "Main Auditorium", capacity := 500,
    location := "Academic Block A",
    amenities := ["Projector", "Sound System", "AC", "Stage"],
    image := "/api/placeholder/400/250", type := VenueTypeB.auditorium }

/-- Initial component state of variant B. -/
def initialStateB : StateB :=
  { bookings := initialBookingsB, selectedVenue := none, selectedDate := "",
    selectedTimeSlot := "", isBookingDialogOpen := false }

/-- One user interaction of variant B.  The approve/reject controls are
rendered only next to a booking whose status is `'pending'` (and only for an
HOD user), which the `approveReject` constructor records as hypotheses. -/
inductive stepB : StateB → StateB → Prop where
  | bookVenue (s : StateB) (v : VenueB) : stepB s (handleBookVenue s v)
  | setDate (s : StateB) (d : String) : stepB s (setSelectedDateB s d)
  | slotClick (s : StateB) (t : String) : stepB s (handleTimeSlotClickB s t)
  | submit (s : StateB) (data : BookingFormData) (newId : String)
      (username : Option String) : stepB s (onSubmitBooking s data newId username)
  | approveReject (s : StateB) (b : BookingB) (st : StatusB)
      (hb : b ∈ s.bookings) (hp : b.status = StatusB.pending)
      (hst : st = StatusB.approved ∨ st = StatusB.rejected) :
      stepB s { s with bookings := updateBookingStatus s.bookings b.id st }
  | deleteEvt (s : StateB) (bid : String) :
      stepB s { s with bookings := deleteBooking s.bookings bid }
  | dialogChange (s : StateB) (flag : Bool) :
      stepB s { s with isBookingDialogOpen := flag }

/-- States of variant B reachable from the seeded initial state. -/
def ReachableB (s : StateB) : Prop :=
  Relation.ReflTransGen stepB initialStateB s

/-- The `(venueId, date, timeSlot)` triple of a variant-B booking. -/
def tripleB (b : BookingB) : String × String × String :=
  (b.venueId, b.date, b.timeSlot)

/-- Uniqueness invariant of variant B: any two bookings at distinct list
positions that are both non-rejected have different triples. -/
def UniqueActiveB (l : List BookingB) : Prop :=
  l.Pairwise fun a b =>
    a.status ≠ StatusB.rejected → b.status ≠ StatusB.rejected → tripleB a ≠ tripleB b

/-! ## Startup load (variant A's mount effect and `JSON.parse`)

The mount effect reads `localStorage.getItem('geeta_university_bookings')`
and, when the result is truthy, calls `JSON.parse` on it with no `try`/
`catch` and installs the result as the bookings state with no shape
validation.  `JSON.parse` is the ECMA-262 JSON grammar; we embed it as a
recursive-descent parser producing a dynamic `JsonVal`, with a thrown
`SyntaxError` modelled as `Except.error`.  JSON numbers are kept as their
source lexeme (their numeric value is irrelevant here). -/

/-- A parsed JSON value. -/
inductive JsonVal where
  | null
  | bool (b : Bool)
  | num (lexeme : String)
  | str (s : String)
  | arr (elems : List JsonVal)
  | obj (fields : List (String × JsonVal))

/-- JSON insignificant whitespace (space, tab, line feed, carriage return). -/
def isJsonWs (c : Char) : Bool :=
  c = ' ' || c = '\t' || c = '\n' || c = '\r'

/-- Skip leading JSON whitespace. -/
def skipWs : List Char → List Char
  | [] => []
  | c :: cs => if isJsonWs c then skipWs cs else c :: cs

/-- Value of a hexadecimal digit. -/
def hexVal (c : Char) : Option Nat :=
  if '0' ≤ c ∧ c ≤ '9' then some (c.toNat - '0'.toNat)
  else if 'a' ≤ c ∧ c ≤ 'f' then some (c.toNat - 'a'.toNat + 10)
  else if 'A' ≤ c ∧ c ≤ 'F' then some (c.toNat - 'A'.toNat + 10)
  else none

/-- Parse the body of a JSON string (the opening quote already consumed),
returning the decoded string and the rest of the input. -/
def parseStringBody (fuel : Nat) (input : List Char) (acc : String) :
    Option (String × List Char) :=
  match fuel, input with
  | 0, _ => none
  | _ + 1, [] => none
  | fuel2 + 1, c :: cs =>
    if c = '"' then some (acc, cs)
    else if c = '\\' then
      match cs with
      | [] => none
      | e :: cs2 =>
        if e = '"' then parseStringBody fuel2 cs2 (acc.push '"')
        else if e = '\\' then parseStringBody fuel2 cs2 (acc.push '\\')
        else if e = '/' then parseStringBody fuel2 cs2 (acc.push '/')
        else if e = 'b' then parseStringBody fuel2 cs2 (acc.push (Char.ofNat 8))
        else if e = 'f' then parseStringBody fuel2 cs2 (acc.push (Char.ofNat 12))
        else if e = 'n' then parseStringBody fuel2 cs2 (acc.push '\n')
        else if e = 'r' then parseStringBody fuel2 cs2 (acc.push '\r')
        else if e = 't' then parseStringBody fuel2 cs2 (acc.push '\t')
        else if e = 'u' then
          match cs2 with
          | h1 :: h2 :: h3 :: h4 :: cs3 =>
            match hexVal h1, hexVal h2, hexVal h3, hexVal h4 with
            | some a, some b, some c2, some d =>
              parseStringBody fuel2 cs3
                (acc.push (Char.ofNat (4096 * a + 256 * b + 16 * c2 + d)))
            | _, _, _, _ => none
          | _ => none
        else none
    else if c.toNat < 32 then none
    else parseStringBody fuel2 cs (acc.push c)

/-- Span a (possibly empty) run of decimal digits. -/
def spanDigits : List Char → List Char × List Char
  | [] => ([], [])
  | c :: cs =>
    if c.isDigit then
      let r := spanDigits cs
      (c :: r.1, r.2)
    else ([], c :: cs)

/-- Parse the optional fraction part `.[0-9]+` of a JSON number. -/
def parseFracPart (acc : List Char) (input : List Char) :
    Option (List Char × List Char) :=
  match input with
  | '.' :: rest =>
    match spanDigits rest with
    | ([], _) => none
    | (ds, rest2) => some (acc ++ '.' :: ds, rest2)
  | _ => some (acc, input)

/-- Parse the optional exponent part `[eE][+-]?[0-9]+` of a JSON number. -/
def parseExpPart (acc : List Char) (input : List Char) :
    Option (List Char × List Char) :=
  match input with
  | [] => some (acc, [])
  | c :: rest =>
    if c = 'e' ∨ c = 'E' then
      let signAndRest : List Char × List Char :=
        match rest with
        | s :: r3 => if s = '+' ∨ s = '-' then ([s], r3) else ([], rest)
        | [] => ([], [])
      match spanDigits signAndRest.2 with
      | ([], _) => none
      | (ds, r4) => some (acc ++ c :: (signAndRest.1 ++ ds), r4)
    else some (acc, c :: rest)

/-- Parse a JSON number `-?(0|[1-9][0-9]*)(.[0-9]+)?([eE][+-]?[0-9]+)?`,
returning its lexeme. -/
def parseNumber (input : List Char) : Option (String × List Char) :=
  let negAndRest : List Char × List Char :=
    match input with
    | '-' :: rest => (['-'], rest)
    | _ => ([], input)
  match negAndRest.2 with
  | [] => none
  | c :: cs =>
    if c = '0' then
      match parseFracPart (negAndRest.1 ++ ['0']) cs with
      | none => none
      | some (acc2, r2) =>
        match parseExpPart acc2 r2 with
        | none => none
        | some (acc3, r3) => some (String.mk acc3, r3)
    else if c.isDigit then
      match spanDigits cs with
      | (ds, rest) =>
        match parseFracPart (negAndRest.1 ++ c :: ds) rest with
        | none => none
        | some (acc2, r2) =>
          match parseExpPart acc2 r2 with
          | none => none
          | some (acc3, r3) => some (String.mk acc3, r3)
    else none

mutual

/-- Parse one JSON value (leading whitespace allowed). -/
def parseValue (fuel : Nat) (input : List Char) : Option (JsonVal × List Char) :=
  match fuel with
  | 0 => none
  | fuel2 + 1 =>
    match skipWs input with
    | [] => none
    | c :: cs =>
      if c = 'n' then
        match cs with
        | 'u' :: 'l' :: 'l' :: rest => some (JsonVal.null, rest)
        | _ => none
      else if c = 't' then
        match cs with
        | 'r' :: 'u' :: 'e' :: rest => some (JsonVal.bool true, rest)
        | _ => none
      else if c = 'f' then
        match cs with
        | 'a' :: 'l' :: 's' :: 'e' :: rest => some (JsonVal.bool false, rest)
        | _ => none
      else if c = '"' then
        match parseStringBody (cs.length + 1) cs "" with
        | none => none
        | some (s, rest) => some (JsonVal.str s, rest)
      else if c = '[' then
        match skipWs cs with
        | ']' :: rest => some (JsonVal.arr [], rest)
        | other => parseElems fuel2 other []
      else if c = '{' then
        match skipWs cs with
        | '}' :: rest => some (JsonVal.obj [], rest)
        | other => parseMembers fuel2 other []
      else if c = '-' ∨ c.isDigit then
        match parseNumber (c :: cs) with
        | none => none
        | some (s, rest) => some (JsonVal.num s, rest)
      else none

/-- Parse the comma-separated elements of a non-empty JSON array. -/
def parseElems (fuel : Nat) (input : List Char) (acc : List JsonVal) :
    Option (JsonVal × List Char) :=
  match fuel with
  | 0 => none
  | fuel2 + 1 =>
    match parseValue fuel2 input with
    | none => none
    | some (v, rest) =>
      match skipWs rest with
      | ',' :: r2 => parseElems fuel2 r2 (acc ++ [v])
      | ']' :: r2 => some (JsonVal.arr (acc ++ [v]), r2)
      | _ => none

/-- Parse the comma-separated members of a non-empty JSON object. -/
def parseMembers (fuel : Nat) (input : List Char) (acc : List (String × JsonVal)) :
    Option (JsonVal × List Char) :=
  match fuel with
  | 0 => none
  | fuel2 + 1 =>
    match skipWs input with
    | '"' :: cs =>
      match parseStringBody (cs.length + 1) cs "" with
      | none => none
      | some (key, rest) =>
        match skipWs rest with
        | ':' :: r2 =>
          match parseValue fuel2 r2 with
          | none => none
          | some (v, r3) =>
            match skipWs r3 with
            | ',' :: r4 => parseMembers fuel2 r4 (acc ++ [(key, v)])
            | '}' :: r4 => some (JsonVal.obj (acc ++ [(key, v)]), r4)
            | _ => none
        | _ => none
    | _ => none

end

/-- `JSON.parse`: parse a complete JSON text; anything else throws a
`SyntaxError`, modelled as `Except.error`. -/
def parseJson (s : String) : Except String JsonVal :=
  match parseValue (2 * s.length + 2) s.data with
  | none => Except.error "SyntaxError: Unexpected token in JSON"
  | some (v, rest) =>
    if (skipWs rest).isEmpty then Except.ok v
    else Except.error "SyntaxError: Unexpected token in JSON"

/-- The mount effect of variant A.  `localStorage.getItem` yields `null`
(`none`) or the stored string; `if (savedBookings)` skips falsy values
(`null` and the empty string), leaving the initial `[]` bookings state
(represented as `JsonVal.arr []`); otherwise the `JSON.parse` result is
installed as the bookings state unchecked, and a parse failure is an
uncaught exception. -/
def loadBookings (saved : Option String) : Except String JsonVal :=
  match saved with
  | none => Except.ok (JsonVal.arr [])
  | some s => if s = "" then Except.ok (JsonVal.arr []) else parseJson s

/-! ## Helper lemmas -/

instance (l : List BookingA) : Decidable (UniqueActiveA l) := by
  unfold UniqueActiveA; infer_instance

instance (l : List BookingB) : Decidable (UniqueActiveB l) := by
  unfold UniqueActiveB; infer_instance

/-- Specification of the variant-A conflict checker as an existential. -/
lemma isTimeSlotBookedA_eq_true_iff (l : List BookingA) (v d t : String) :
    isTimeSlotBookedA l v d t = true ↔
      ∃ b, b ∈ l ∧ b.venueId = v ∧ b.date = d ∧ b.timeSlot = t ∧
        b.status ≠ StatusA.Cancelled := by
  simp [isTimeSlotBookedA, List.any_eq_true, Bool.and_eq_true, beq_iff_eq,
    bne_iff_ne, and_assoc]

/-- Specification of the variant-B conflict checker as an existential. -/
lemma isTimeSlotBookedB_eq_true_iff (l : List BookingB) (v d t : String) :
    isTimeSlotBookedB l v d t = true ↔
      ∃ b, b ∈ l ∧ b.venueId = v ∧ b.date = d ∧ b.timeSlot = t ∧
        b.status ≠ StatusB.rejected := by
  simp [isTimeSlotBookedB, List.any_eq_true, Bool.and_eq_true, beq_iff_eq,
    bne_iff_ne, and_assoc]

/-- The per-booking rewriting function of `handleCancelBooking` preserves the
`(venueId, date, timeSlot)` triple. -/
lemma cancelFn_triple (bid : String) (b : BookingA) :
    tripleA (if b.id == bid then { b with status := StatusA.Cancelled } else b) = tripleA b := by
  by_cases h : b.id == bid <;> simp [h, tripleA]

/-- A booking that is still active after `handleCancelBooking`'s rewrite was
not rewritten at all. -/
lemma cancelFn_eq_of_active (bid : String) (b : BookingA)
    (h : (if b.id == bid then { b with status := StatusA.Cancelled } else b).status ≠
      StatusA.Cancelled) :
    (if b.id == bid then { b with status := StatusA.Cancelled } else b) = b := by
  by_cases hb : b.id == bid
  · simp [hb] at h
  · simp [hb]

/-- Soft-cancelling preserves the uniqueness invariant. -/
lemma uniqueActiveA_cancel {l : List BookingA} (bid : String)
    (hu : UniqueActiveA l) : UniqueActiveA (handleCancelBooking l bid) := by
  unfold UniqueActiveA handleCancelBooking
  rw [List.pairwise_map]
  refine hu.imp ?_
  intro a b hab ha hb
  have ea := cancelFn_eq_of_active bid a ha
  have eb := cancelFn_eq_of_active bid b hb
  rw [ea, eb]
  rw [ea] at ha
  rw [eb] at hb
  exact hab ha hb

/-- Soft-cancelling never makes a free slot booked. -/
lemma bookedA_cancel_false {l : List BookingA} {v d t : String} (bid : String)
    (h : isTimeSlotBookedA l v d t = false) :
    isTimeSlotBookedA (handleCancelBooking l bid) v d t = false := by
  cases hb : isTimeSlotBookedA (handleCancelBooking l bid) v d t with
  | false => rfl
  | true =>
    exfalso
    rw [isTimeSlotBookedA_eq_true_iff] at hb
    obtain ⟨fb, hmem, hv, hd, ht, hs⟩ := hb
    rw [handleCancelBooking, List.mem_map] at hmem
    obtain ⟨b, hbl, rfl⟩ := hmem
    have eb := cancelFn_eq_of_active bid b hs
    rw [eb] at hv hd ht hs
    have : isTimeSlotBookedA l v d t = true := by
      rw [isTimeSlotBookedA_eq_true_iff]
      exact ⟨b, hbl, hv, hd, ht, hs⟩
    rw [h] at this
    exact Bool.false_ne_true this

/-- Appending a booking whose slot the conflict checker reported free
preserves the uniqueness invariant. -/
lemma uniqueActiveA_append {l : List BookingA} {v d t : String} {nb : BookingA}
    (hu : UniqueActiveA l) (hfree : isTimeSlotBookedA l v d t = false)
    (hnb : tripleA nb = (v, d, t)) : UniqueActiveA (l ++ [nb]) := by
  unfold UniqueActiveA
  rw [List.pairwise_append]
  refine ⟨hu, List.pairwise_singleton _ _, ?_⟩
  intro a ha b hb
  rw [List.mem_singleton] at hb
  subst hb
  intro hacta _ heq
  have : isTimeSlotBookedA l v d t = true := by
    rw [isTimeSlotBookedA_eq_true_iff]
    refine ⟨a, ha, ?_, ?_, ?_, hacta⟩ <;>
      · have := heq.trans hnb
        simp [tripleA, Prod.ext_iff] at this
        tauto
  rw [hfree] at this
  exact Bool.false_ne_true this

/-- Inductive invariant of variant A: the bookings list satisfies uniqueness,
and whenever a time slot is selected for a selected venue, the conflict
checker reports the current `(venue, date, slot)` choice free.  The second
component holds because every event that changes the venue or the date also
clears the selected slot, and the only event that adds bookings (submit)
clears the slot as well. -/
def InvA (s : StateA) : Prop :=
  UniqueActiveA s.bookings ∧
  ∀ v, s.selectedVenue = some v → s.selectedTimeSlot ≠ "" →
    isTimeSlotBookedA s.bookings v.id s.selectedDate s.selectedTimeSlot = false

/-- Every variant-A interaction preserves `InvA`. -/
lemma invA_step {s s2 : StateA} (hinv : InvA s) (h : stepA s s2) : InvA s2 := by
  obtain ⟨hu, hfree⟩ := hinv
  cases h with
  | venueSelect v =>
    refine ⟨hu, ?_⟩
    intro v2 hv2 hslot
    simp [handleVenueSelect] at hslot
  | dateSelect d =>
    refine ⟨hu, ?_⟩
    intro v2 hv2 hslot
    simp [handleDateSelect] at hslot
  | timeSlotSelect t =>
    unfold handleTimeSlotSelect
    cases hv : s.selectedVenue with
    | none => exact ⟨hu, hfree⟩
    | some v =>
      by_cases hd : s.selectedDate = ""
      · simp only [hd, if_pos rfl]
        exact ⟨hu, hfree⟩
      · simp only [if_neg hd]
        by_cases hbk : isTimeSlotBookedA s.bookings v.id s.selectedDate t
        · simp only [hbk, if_pos rfl]
          exact ⟨hu, hfree⟩
        · rw [if_neg hbk]
          refine ⟨hu, ?_⟩
          intro v2 hv2 hslot
          injection hv2 with hv2
          subst hv2
          simpa using hbk
  | submit newId createdAt =>
    unfold handleBookingSubmit
    cases hv : s.selectedVenue with
    | none => exact ⟨hu, hfree⟩
    | some v =>
      dsimp only
      by_cases hguard : s.selectedDate = "" ∨ s.selectedTimeSlot = "" ∨
          jsTrim s.bookingForm.purpose = ""
      · rw [if_pos hguard]
        exact ⟨hu, hfree⟩
      · rw [if_neg hguard]
        push_neg at hguard
        obtain ⟨hd, hslot, hp⟩ := hguard
        have hfr := hfree v hv hslot
        refine ⟨?_, ?_⟩
        · exact uniqueActiveA_append hu hfr rfl
        · intro v2 hv2 hslot2
          simp at hslot2
  | cancel bid =>
    refine ⟨uniqueActiveA_cancel bid hu, ?_⟩
    intro v hv hslot
    exact bookedA_cancel_false bid (hfree v hv hslot)
  | closeForm => exact ⟨hu, hfree⟩
  | purposeChange x => exact ⟨hu, hfree⟩
  | bookerNameChange x => exact ⟨hu, hfree⟩
  | departmentChange x => exact ⟨hu, hfree⟩

/-- `InvA` holds in every reachable variant-A state. -/
lemma invA_reachable {s : StateA} (h : ReachableA s) : InvA s := by
  induction h with
  | refl =>
    refine ⟨List.Pairwise.nil, ?_⟩
    intro v hv hslot
    simp [initialStateA] at hslot
  | tail hab hbc ih => exact invA_step ih hbc

/-! ## Claim C1 -/

/-- C1 (amended): in variant A every reachable bookings list is
conflict-free — any two bookings at distinct positions that are both
non-Cancelled differ in `(venueId, date, timeSlot)` — and hence every
insertion path (slot selection followed by form submission) preserves this
uniqueness.  (The original claim also asserted this for variant B; the
counterexample `reachableB_uniqueness_violation` below shows variant B can
reach a duplicated active triple, because changing the date after selecting
a slot does not clear the slot and submission does not re-run the conflict
check.) -/
theorem reachableA_bookings_unique (s : StateA) (h : ReachableA s) :
    UniqueActiveA s.bookings :=
  (invA_reachable h).1

/-- The auditorium record from `VENUES`, used in concrete runs. -/
def venueAud : VenueA :=
  { id := "auditorium", name := "Main Auditorium",
    description := "Large capacity auditorium perfect for conferences, seminars, and major events",
    capacity := "500 seats", location := "Main Building, Ground Floor",
    features := ["Air Conditioning", "Projector", "Sound System", "Stage", "Microphones"] }

/-- A concrete variant-A state reached by one complete booking interaction:
select the auditorium, pick a date, type a purpose, pick slot 9-10, submit. -/
def wStateA : StateA :=
  handleBookingSubmit
    (handleTimeSlotSelect
      (setPurposeA
        (handleDateSelect (handleVenueSelect initialStateA venueAud) "2024-03-10")
        "Board Meeting")
      "9-10")
    "booking_1710000000000_abc123def" "2024-03-09T10:00:00.000Z"

/-- Witness for `reachableA_bookings_unique` at the concrete reachable state
`wStateA` (whose bookings list contains the one submitted booking). -/
theorem reachableA_bookings_unique_witness :
    ReachableA wStateA ∧ UniqueActiveA wStateA.bookings := by
  have h : ReachableA wStateA :=
    Relation.ReflTransGen.tail
      (Relation.ReflTransGen.tail
        (Relation.ReflTransGen.tail
          (Relation.ReflTransGen.tail
            (Relation.ReflTransGen.tail Relation.ReflTransGen.refl
              (stepA.venueSelect _ venueAud))
            (stepA.dateSelect _ "2024-03-10"))
          (stepA.purposeChange _ "Board Meeting"))
        (stepA.timeSlotSelect _ "9-10"))
      (stepA.submit _ "booking_1710000000000_abc123def" "2024-03-09T10:00:00.000Z")
  exact ⟨h, reachableA_bookings_unique _ h⟩

/-- Booking-form payload used in the variant-B counterexample run. -/
def cexFormData : BookingFormData :=
  { purpose := "Guest Lecture", attendees := 40, requirements := "",
    contactEmail := "prof.johnson@geeta.edu", department := "Computer Science" }

/-- A variant-B state reached by: book venue 1, pick 2024-02-02, click the
free 09:00-10:00 slot, submit; then book venue 1 again, pick 2024-02-01,
click the (there) free 09:00-10:00 slot, change the date back to 2024-02-02
(the slot selection survives the date change), and submit again. -/
def cexStateB : StateB :=
  onSubmitBooking
    (setSelectedDateB
      (handleTimeSlotClickB
        (setSelectedDateB
          (handleBookVenue
            (onSubmitBooking
              (handleTimeSlotClickB
                (setSelectedDateB (handleBookVenue initialStateB venue1B) "2024-02-02")
                "09:00-10:00")
              cexFormData "3" (some "Prof. Johnson"))
            venue1B)
          "2024-02-01")
        "09:00-10:00")
      "2024-02-02")
    cexFormData "4" (some "Prof. Johnson")

/-- C1 (counterexample): `cexStateB` is reachable in variant B through slot
selections and form submissions only, yet its bookings list ends with two
pending bookings that share the triple `("1", "2024-02-02", "09:00-10:00")`,
refuting the uniqueness claim for variant B. -/
theorem reachableB_uniqueness_violation :
    ReachableB cexStateB ∧ ¬ UniqueActiveB cexStateB.bookings := by
  constructor
  · exact Relation.ReflTransGen.tail
      (Relation.ReflTransGen.tail
        (Relation.ReflTransGen.tail
          (Relation.ReflTransGen.tail
            (Relation.ReflTransGen.tail
              (Relation.ReflTransGen.tail
                (Relation.ReflTransGen.tail
                  (Relation.ReflTransGen.tail
                    (Relation.ReflTransGen.tail Relation.ReflTransGen.refl
                      (stepB.bookVenue _ _))
                    (stepB.setDate _ _))
                  (stepB.slotClick _ _))
                (stepB.submit _ _ _ _))
              (stepB.bookVenue _ _))
            (stepB.setDate _ _))
          (stepB.slotClick _ _))
        (stepB.setDate _ _))
      (stepB.submit _ _ _ _)
  · decide

/-! ## Claim C2 -/

/-- C2: in both variants, `isTimeSlotBooked bookings venueId date timeSlot`
returns `true` iff some booking in the list matches all three fields and has
a non-terminal-negative status (`≠ Cancelled` in variant A, `≠ rejected` in
variant B). -/
theorem isTimeSlotBooked_contract :
    (∀ (l : List BookingA) (v d t : String),
      isTimeSlotBookedA l v d t = true ↔
        ∃ b, b ∈ l ∧ b.venueId = v ∧ b.date = d ∧ b.timeSlot = t ∧
          b.status ≠ StatusA.Cancelled) ∧
    (∀ (l : List BookingB) (v d t : String),
      isTimeSlotBookedB l v d t = true ↔
        ∃ b, b ∈ l ∧ b.venueId = v ∧ b.date = d ∧ b.timeSlot = t ∧
          b.status ≠ StatusB.rejected) :=
  ⟨isTimeSlotBookedA_eq_true_iff, isTimeSlotBookedB_eq_true_iff⟩

/-- A Pending auditorium booking used in concrete instances. -/
def permBookingA1 : BookingA :=
  { id := "booking_1", venueId := "auditorium", venueName := "Main Auditorium",
    date := "2024-03-10", timeSlot := "9-10", bookerName := "Dr. Rajesh Kumar",
    department := "Computer Science", purpose := "Board Meeting",
    status := StatusA.Pending, createdAt := "2024-03-09T10:00:00.000Z" }

/-- A Cancelled seminar-hall booking used in concrete instances. -/
def permBookingA2 : BookingA :=
  { id := "booking_2", venueId := "e-block-seminar", venueName := "E Block Seminar Hall",
    date := "2024-03-11", timeSlot := "10-11", bookerName := "Dr. Rajesh Kumar",
    department := "Computer Science", purpose := "Workshop",
    status := StatusA.Cancelled, createdAt := "2024-03-09T11:00:00.000Z" }

/-- Witness for `isTimeSlotBooked_contract` at a concrete bookings list and
query. -/
theorem isTimeSlotBooked_contract_witness :
    isTimeSlotBookedA [permBookingA1, permBookingA2] "auditorium" "2024-03-10" "9-10" = true ↔
      ∃ b, b ∈ [permBookingA1, permBookingA2] ∧ b.venueId = "auditorium" ∧
        b.date = "2024-03-10" ∧ b.timeSlot = "9-10" ∧ b.status ≠ StatusA.Cancelled :=
  isTimeSlotBooked_contract.1 [permBookingA1, permBookingA2] "auditorium" "2024-03-10" "9-10"

/-! ## Claim C8 -/

/-- C8: the conflict checker of either variant is invariant under
permutation of the bookings list (it is a pure `some`/`any` scan, so the
result depends only on which bookings are present, and the list itself is
never mutated — the embedding is a pure function). -/
theorem isTimeSlotBooked_perm_invariant :
    (∀ (l1 l2 : List BookingA), l1.Perm l2 → ∀ (v d t : String),
      isTimeSlotBookedA l1 v d t = isTimeSlotBookedA l2 v d t) ∧
    (∀ (l1 l2 : List BookingB), l1.Perm l2 → ∀ (v d t : String),
      isTimeSlotBookedB l1 v d t = isTimeSlotBookedB l2 v d t) := by
  constructor
  · intro l1 l2 hperm v d t
    rw [Bool.eq_iff_iff, isTimeSlotBookedA_eq_true_iff, isTimeSlotBookedA_eq_true_iff]
    exact exists_congr fun b => and_congr_left fun _ => hperm.mem_iff
  · intro l1 l2 hperm v d t
    rw [Bool.eq_iff_iff, isTimeSlotBookedB_eq_true_iff, isTimeSlotBookedB_eq_true_iff]
    exact exists_congr fun b => and_congr_left fun _ => hperm.mem_iff

/-- Witness for `isTimeSlotBooked_perm_invariant` on a concrete two-element
bookings list and its swap. -/
theorem isTimeSlotBooked_perm_invariant_witness :
    ([permBookingA1, permBookingA2].Perm [permBookingA2, permBookingA1]) ∧
    isTimeSlotBookedA [permBookingA1, permBookingA2] "auditorium" "2024-03-10" "9-10" =
      isTimeSlotBookedA [permBookingA2, permBookingA1] "auditorium" "2024-03-10" "9-10" :=
  ⟨List.Perm.swap permBookingA2 permBookingA1 [],
   isTimeSlotBooked_perm_invariant.1 _ _ (List.Perm.swap permBookingA2 permBookingA1 [])
     "auditorium" "2024-03-10" "9-10"⟩

/-! ## Claims C3 and C4 -/

/-- In a list whose mapped images are nodup, an element with the same image
as a member `b` is `b` itself. -/
lemma getElem_eq_of_map_nodup {α β : Type} (l : List α) (g : α → β)
    (hnodup : (l.map g).Nodup) (b : α) (hb : b ∈ l)
    (i : Nat) (hi : i < l.length) (h : g (l[i]) = g b) : l[i] = b := by
  obtain ⟨j, hjlt, hj⟩ := List.mem_iff_getElem.mp hb
  have hi2 : i < (l.map g).length := by simpa using hi
  have hj2 : j < (l.map g).length := by simpa using hjlt
  have h1 : (l.map g)[i] = (l.map g)[j] := by
    simp only [List.getElem_map]
    rw [hj]
    exact h
  have hij : i = j := (hnodup.getElem_inj_iff).mp h1
  subst hij
  exact hj

/-- C3 (amended): `updateBookingStatus` itself overwrites the matching
booking's status unconditionally (see the counterexample
`updateBookingStatus_overwrites_terminal`); the approve/reject controls are
however rendered only for a `pending` booking, and when the operation is
invoked that way — with the id of a pending member of the list, booking ids
being unique — every booking whose status is already terminal is left
unchanged. -/
theorem updateBookingStatus_guarded_preserves_terminal
    (l : List BookingB) (b : BookingB) (st : StatusB)
    (hb : b ∈ l) (hpend : b.status = StatusB.pending)
    (hnodup : (l.map BookingB.id).Nodup)
    (i : Nat) (hi : i < l.length) (hi2 : i < (updateBookingStatus l b.id st).length)
    (hterm : (l[i]).status ≠ StatusB.pending) :
    (updateBookingStatus l b.id st)[i] = l[i] := by
  have hstep : (updateBookingStatus l b.id st)[i] =
      (if (l[i]).id == b.id then { l[i] with status := st } else l[i]) := by
    simp only [updateBookingStatus, List.getElem_map]
  rw [hstep]
  by_cases hid : (l[i]).id == b.id
  · exfalso
    have heq : l[i] = b :=
      getElem_eq_of_map_nodup l BookingB.id hnodup b hb i hi (by simpa using hid)
    rw [heq] at hterm
    exact hterm hpend
  · simp [hid]

/-- Witness for `updateBookingStatus_guarded_preserves_terminal`: approving
the pending seeded booking `"2"` leaves the approved seeded booking `"1"`
(position 0) unchanged. -/
theorem updateBookingStatus_guarded_witness :
    (updateBookingStatus initialBookingsB seedBooking2.id StatusB.approved).get ⟨0, by decide⟩ =
      initialBookingsB.get ⟨0, by decide⟩ :=
  updateBookingStatus_guarded_preserves_terminal initialBookingsB seedBooking2 StatusB.approved
    (by decide) rfl (by decide) 0 (by decide) (by decide) (by decide)

/-- C3 (counterexample): calling `updateBookingStatus` with the id of the
already-Approved seeded booking `"1"` and status `'rejected'` does change its
status — the reject call on an approved booking is not a no-op at the
state-mutation level. -/
theorem updateBookingStatus_overwrites_terminal :
    updateBookingStatus initialBookingsB "1" StatusB.rejected ≠ initialBookingsB ∧
    (updateBookingStatus initialBookingsB "1" StatusB.rejected).map BookingB.status =
      [StatusB.rejected, StatusB.pending] ∧
    initialBookingsB.map BookingB.status = [StatusB.approved, StatusB.pending] :=
  ⟨by decide, rfl, rfl⟩

/-- An Approved variant-A booking used in concrete instances. -/
def approvedBookingA : BookingA :=
  { id := "booking_3", venueId := "auditorium", venueName := "Main Auditorium",
    date := "2024-03-12", timeSlot := "11-12", bookerName := "Dr. Rajesh Kumar",
    department := "Computer Science", purpose := "Seminar",
    status := StatusA.Approved, createdAt := "2024-03-09T12:00:00.000Z" }

/-- C4 (amended): `handleCancelBooking` itself sets the matching booking's
status to Cancelled regardless of its current status (see the counterexample
`handleCancelBooking_cancels_approved`); the Cancel control is however
rendered only for a `Pending` booking, and when the operation is invoked
that way — with the id of a Pending member of the list, booking ids being
unique — every booking whose status is already terminal is left unchanged. -/
theorem handleCancelBooking_guarded_preserves_terminal
    (l : List BookingA) (b : BookingA)
    (hb : b ∈ l) (hpend : b.status = StatusA.Pending)
    (hnodup : (l.map BookingA.id).Nodup)
    (i : Nat) (hi : i < l.length) (hi2 : i < (handleCancelBooking l b.id).length)
    (hterm : (l[i]).status ≠ StatusA.Pending) :
    (handleCancelBooking l b.id)[i] = l[i] := by
  have hstep : (handleCancelBooking l b.id)[i] =
      (if (l[i]).id == b.id then { l[i] with status := StatusA.Cancelled } else l[i]) := by
    simp only [handleCancelBooking, List.getElem_map]
  rw [hstep]
  by_cases hid : (l[i]).id == b.id
  · exfalso
    have heq : l[i] = b :=
      getElem_eq_of_map_nodup l BookingA.id hnodup b hb i hi (by simpa using hid)
    rw [heq] at hterm
    exact hterm hpend
  · simp [hid]

/-- Witness for `handleCancelBooking_guarded_preserves_terminal`: cancelling
the Pending booking `booking_1` leaves the Approved booking at position 0
unchanged. -/
theorem handleCancelBooking_guarded_witness :
    (handleCancelBooking [approvedBookingA, permBookingA1] permBookingA1.id).get ⟨0, by decide⟩ =
      [approvedBookingA, permBookingA1].get ⟨0, by decide⟩ :=
  handleCancelBooking_guarded_preserves_terminal [approvedBookingA, permBookingA1]
    permBookingA1 (by decide) rfl (by decide) 0 (by decide) (by decide) (by decide)

/-- C4 (counterexample): calling `handleCancelBooking` with the id of an
Approved booking does change the list — the booking becomes Cancelled even
though its status was not Pending, so the operation is not a no-op on
terminal bookings. -/
theorem handleCancelBooking_cancels_approved :
    handleCancelBooking [approvedBookingA] "booking_3" ≠ [approvedBookingA] ∧
    (handleCancelBooking [approvedBookingA] "booking_3").map BookingA.status =
      [StatusA.Cancelled] ∧
    approvedBookingA.status = StatusA.Approved :=
  ⟨by decide, rfl, rfl⟩

/-! ## Claim C5 -/

/-- C5: `handleCancelBooking` preserves the list length and, at every
position, all fields except possibly `status`; a position whose id differs
from the cancelled id is completely unchanged (which covers "every other
booking in the list is unchanged"). -/
theorem handleCancelBooking_frame
    (l : List BookingA) (bid : String) (i : Nat)
    (hi : i < l.length) (hi2 : i < (handleCancelBooking l bid).length) :
    (handleCancelBooking l bid).length = l.length ∧
    ((handleCancelBooking l bid)[i]).id = (l[i]).id ∧
    ((handleCancelBooking l bid)[i]).venueId = (l[i]).venueId ∧
    ((handleCancelBooking l bid)[i]).venueName = (l[i]).venueName ∧
    ((handleCancelBooking l bid)[i]).date = (l[i]).date ∧
    ((handleCancelBooking l bid)[i]).timeSlot = (l[i]).timeSlot ∧
    ((handleCancelBooking l bid)[i]).bookerName = (l[i]).bookerName ∧
    ((handleCancelBooking l bid)[i]).department = (l[i]).department ∧
    ((handleCancelBooking l bid)[i]).purpose = (l[i]).purpose ∧
    ((handleCancelBooking l bid)[i]).createdAt = (l[i]).createdAt ∧
    ((l[i]).id ≠ bid → (handleCancelBooking l bid)[i] = l[i]) := by
  have hstep : (handleCancelBooking l bid)[i] =
      (if (l[i]).id == bid then { l[i] with status := StatusA.Cancelled } else l[i]) := by
    simp only [handleCancelBooking, List.getElem_map]
  refine ⟨by simp [handleCancelBooking], ?_⟩
  rw [hstep]
  by_cases hid : (l[i]).id == bid
  · rw [beq_iff_eq] at hid
    simp [hid]
  · rw [beq_iff_eq] at hid
    simp [hid]

/-- Witness for `handleCancelBooking_frame`: cancelling `booking_1` in a
concrete two-booking list keeps the length and the cancelled booking's
purpose. -/
theorem handleCancelBooking_frame_witness :
    (handleCancelBooking [permBookingA1, permBookingA2] "booking_1").length =
      [permBookingA1, permBookingA2].length ∧
    ((handleCancelBooking [permBookingA1, permBookingA2] "booking_1").get ⟨0, by decide⟩).purpose =
      ([permBookingA1, permBookingA2].get ⟨0, by decide⟩).purpose := by
  have h := handleCancelBooking_frame [permBookingA1, permBookingA2] "booking_1" 0
    (by decide) (by decide)
  exact ⟨h.1, h.2.2.2.2.2.2.2.2.1⟩

/-! ## Claim C6 -/

/-- C6 (amended): in variant A, submission with a missing venue, date, or
slot, or a purpose that trims to empty, leaves the bookings list unchanged;
in variant B the submit handler guards only venue, date and slot (the
counterexample `onSubmitBooking_accepts_empty_purpose` shows an empty
purpose is accepted there). -/
theorem submit_validation_guards :
    (∀ (s : StateA) (newId createdAt : String),
      (s.selectedVenue = none ∨ s.selectedDate = "" ∨ s.selectedTimeSlot = "" ∨
        jsTrim s.bookingForm.purpose = "") →
      (handleBookingSubmit s newId createdAt).bookings = s.bookings) ∧
    (∀ (s : StateB) (data : BookingFormData) (newId : String) (u : Option String),
      (s.selectedVenue = none ∨ s.selectedDate = "" ∨ s.selectedTimeSlot = "") →
      (onSubmitBooking s data newId u).bookings = s.bookings) := by
  constructor
  · intro s newId createdAt h
    unfold handleBookingSubmit
    cases hv : s.selectedVenue with
    | none => rfl
    | some v =>
      dsimp only
      rcases h with h | h | h | h
      · rw [hv] at h
        exact absurd h (by simp)
      · rw [if_pos (Or.inl h)]
      · rw [if_pos (Or.inr (Or.inl h))]
      · rw [if_pos (Or.inr (Or.inr h))]
  · intro s data newId u h
    unfold onSubmitBooking
    cases hv : s.selectedVenue with
    | none => rfl
    | some v =>
      dsimp only
      rcases h with h | h | h
      · rw [hv] at h
        exact absurd h (by simp)
      · rw [if_pos (Or.inl h)]
      · rw [if_pos (Or.inr h)]

/-- Witness for `submit_validation_guards`: submitting from the initial
variant-A state (no venue selected) leaves the empty bookings list alone. -/
theorem submit_validation_guards_witness :
    (handleBookingSubmit initialStateA "booking_x" "2024-03-09T10:00:00.000Z").bookings =
      initialStateA.bookings :=
  submit_validation_guards.1 initialStateA "booking_x" "2024-03-09T10:00:00.000Z" (Or.inl rfl)

/-- A variant-B state with venue, date and slot all selected. -/
def fullSelectionStateB : StateB :=
  { bookings := [], selectedVenue := some venue1B, selectedDate := "2024-03-10",
    selectedTimeSlot := "09:00-10:00", isBookingDialogOpen := true }

/-- A form payload whose purpose is the empty string. -/
def emptyPurposeData : BookingFormData :=
  { purpose := "", attendees := 1, requirements := "", contactEmail := "",
    department := "" }

/-- C6 (counterexample): in variant B, submitting with an empty purpose (but
venue, date and slot selected) grows the store by one booking whose purpose
is empty — refuting "submitting with an empty purpose never mutates the
Booking Store" for variant B. -/
theorem onSubmitBooking_accepts_empty_purpose :
    (onSubmitBooking fullSelectionStateB emptyPurposeData "99" (some "student1")).bookings.length =
      fullSelectionStateB.bookings.length + 1 ∧
    (onSubmitBooking fullSelectionStateB emptyPurposeData "99" (some "student1")).bookings.map
      BookingB.purpose = [""] ∧
    emptyPurposeData.purpose = "" :=
  ⟨rfl, rfl, rfl⟩

/-! ## Claim C9 -/

/-- C9 (amended): variant A's `handleVenueSelect` stores the venue and
resets the date, the slot and the form flag; variant B's `handleBookVenue`
stores the venue and opens the dialog while leaving the previously selected
date and time slot untouched.  Neither touches the bookings list. -/
theorem venue_select_behavior :
    (∀ (s : StateA) (v : VenueA),
      (handleVenueSelect s v).selectedVenue = some v ∧
      (handleVenueSelect s v).selectedDate = "" ∧
      (handleVenueSelect s v).selectedTimeSlot = "" ∧
      (handleVenueSelect s v).showBookingForm = false ∧
      (handleVenueSelect s v).bookings = s.bookings) ∧
    (∀ (s : StateB) (v : VenueB),
      (handleBookVenue s v).selectedVenue = some v ∧
      (handleBookVenue s v).isBookingDialogOpen = true ∧
      (handleBookVenue s v).selectedDate = s.selectedDate ∧
      (handleBookVenue s v).selectedTimeSlot = s.selectedTimeSlot ∧
      (handleBookVenue s v).bookings = s.bookings) :=
  ⟨fun _ _ => ⟨rfl, rfl, rfl, rfl, rfl⟩, fun _ _ => ⟨rfl, rfl, rfl, rfl, rfl⟩⟩

/-- A variant-B state holding stale date and slot selections. -/
def staleSelectionStateB : StateB :=
  { bookings := initialBookingsB, selectedVenue := none, selectedDate := "2024-01-20",
    selectedTimeSlot := "10:00-11:00", isBookingDialogOpen := false }

/-- C9 (counterexample): in variant B, choosing a venue neither clears the
previously selected date and slot nor leaves the dialog closed — refuting
the claim's reset behavior for variant B at a concrete state. -/
theorem handleBookVenue_does_not_reset :
    ¬ ((handleBookVenue staleSelectionStateB venue1B).selectedDate = "" ∧
       (handleBookVenue staleSelectionStateB venue1B).selectedTimeSlot = "" ∧
       (handleBookVenue staleSelectionStateB venue1B).isBookingDialogOpen = false) := by
  decide

/-! ## Claim C10 -/

/-- C10: when no booking in the list carries the given id, cancel (variant
A), approve/reject (variant B) and delete (variant B) all return the list
exactly unchanged — same records, same order. -/
theorem missing_id_ops_noop :
    (∀ (l : List BookingA) (bid : String), (∀ b ∈ l, b.id ≠ bid) →
      handleCancelBooking l bid = l) ∧
    (∀ (l : List BookingB) (bid : String) (st : StatusB), (∀ b ∈ l, b.id ≠ bid) →
      updateBookingStatus l bid st = l) ∧
    (∀ (l : List BookingB) (bid : String), (∀ b ∈ l, b.id ≠ bid) →
      deleteBooking l bid = l) := by
  refine ⟨?_, ?_, ?_⟩
  · intro l bid h
    unfold handleCancelBooking
    have hcongr : (l.map fun booking =>
        if booking.id == bid then { booking with status := StatusA.Cancelled }
        else booking) = l.map id :=
      List.map_congr_left fun a ha => by simp [h a ha]
    rw [hcongr, List.map_id]
  · intro l bid st h
    unfold updateBookingStatus
    have hcongr : (l.map fun booking =>
        if booking.id == bid then { booking with status := st }
        else booking) = l.map id :=
      List.map_congr_left fun a ha => by simp [h a ha]
    rw [hcongr, List.map_id]
  · intro l bid h
    unfold deleteBooking
    rw [List.filter_eq_self.mpr]
    intro a ha
    simpa using h a ha

/-- Witness for `missing_id_ops_noop` on concrete lists and an id none of
their bookings carry. -/
theorem missing_id_ops_noop_witness :
    handleCancelBooking [permBookingA1, permBookingA2] "no_such_id" =
      [permBookingA1, permBookingA2] ∧
    updateBookingStatus initialBookingsB "no_such_id" StatusB.rejected = initialBookingsB ∧
    deleteBooking initialBookingsB "no_such_id" = initialBookingsB :=
  ⟨missing_id_ops_noop.1 _ "no_such_id" (by decide),
   missing_id_ops_noop.2.1 _ "no_such_id" StatusB.rejected (by decide),
   missing_id_ops_noop.2.2 _ "no_such_id" (by decide)⟩

/-! ## Claim C7 -/

/-- C7 (amended): an absent stored value, and an empty stored string (both
falsy in JS), leave the bookings state as the empty list; any other stored
string is handed to `JSON.parse` with no exception handling and no shape
validation, so its parse result — whatever value it is — is installed
verbatim, and a parse failure propagates as an uncaught exception. -/
theorem loadBookings_behavior :
    loadBookings none = Except.ok (JsonVal.arr []) ∧
    loadBookings (some "") = Except.ok (JsonVal.arr []) ∧
    (∀ s : String, s ≠ "" → loadBookings (some s) = parseJson s) := by
  refine ⟨rfl, rfl, ?_⟩
  intro s hs
  unfold loadBookings
  dsimp only
  rw [if_neg hs]

/-- Witness for `loadBookings_behavior` at the concrete stored string
`"[]"`. -/
theorem loadBookings_behavior_witness :
    loadBookings (some "[]") = parseJson "[]" :=
  loadBookings_behavior.2.2 "[]" (by decide)

/-- C7 (counterexample): the stored string `"oops"` is not JSON, so the load
raises `SyntaxError` instead of yielding the empty list; the stored string
`"42"` is well-formed JSON of the wrong shape, and the load installs the
number `42` — not the empty list — as the bookings state. -/
theorem loadBookings_malformed_not_empty_list :
    loadBookings (some "oops") = Except.error "SyntaxError: Unexpected token in JSON" ∧
    loadBookings (some "42") = Except.ok (JsonVal.num "42") ∧
    loadBookings (some "42") ≠ Except.ok (JsonVal.arr []) := by
  refine ⟨rfl, rfl, ?_⟩
  intro h
  rw [show loadBookings (some "42") = Except.ok (JsonVal.num "42") from rfl] at h
  exact JsonVal.noConfusion (Except.ok.inj h)
